import Mathlib

/-!
Verification of the configuration-and-dispatch logic of
`src/training/finetune.py` (musicbert_hf fine-tuning launcher).

The script is embedded shallowly: the `Config` dataclass becomes a Lean
structure whose construction function `mkConfig` mirrors `__init__` +
`__post_init__` (including the required-field `TypeError` and the
epochs/steps assertion); `os.path.join` becomes `osPathJoin2`; the CLI
partition in `get_config_and_training_kwargs` becomes dictionary filters;
and the `__main__` block becomes `runMain`, a sequential function that
records the process-wide side effects (the `WANDB_PROJECT` environment
variable, dataset-handle construction, model selection) and the outcome.
-/

namespace Finetune

/-- Python exception values raised by the script. -/
inductive PyError where
  | typeError (msg : String)
  | assertionError (msg : String)
  | valueError (msg : String)
  | notImplementedError (msg : String)
  | indexError (msg : String)
  deriving DecidableEq, Repr

/-- `s.startswith("/")`: the first character is the separator. -/
def headIsSep (s : String) : Bool :=
  match s.data with
  | [] => false
  | c :: _ => c = '/'

/-- `s.endswith("/")`: the last character is the separator. -/
def lastIsSep (s : String) : Bool :=
  match s.data.getLast? with
  | some c => c = '/'
  | none => false

/-- `os.path.join(a, b)` with POSIX semantics: an absolute second component
replaces the first; a trailing separator (or empty first component)
suppresses the inserted separator. -/
def osPathJoin2 (a b : String) : String :=
  if headIsSep b then b
  else if a = "" || lastIsSep a then a ++ b
  else a ++ "/" ++ b

/-- `os.path.join(a, b, c)` folds `osPathJoin2` left to right, as Python does. -/
def osPathJoin3 (a b c : String) : String :=
  osPathJoin2 (osPathJoin2 a b) c

/-- A `str | list[str]` union value, as accepted by the `targets` and
`conditioning` fields of the dataclass. -/
inductive StrOrList where
  | str (s : String)
  | list (l : List String)
  deriving DecidableEq, Repr

/-- The `freeze_layers` field: `None`, an `int` cutoff, or a sequence of
layer indices. -/
inductive FreezeSpec where
  | noneSpec
  | upTo (n : Int)
  | exactly (ns : List Int)
  deriving DecidableEq, Repr

/-- The keyword arguments handed to `Config(**config_kwargs)`. A field
wrapped in an outer `Option` set to `none` models the keyword being absent
from the call (for required fields this is a `TypeError`); defaulted fields
carry Python's dataclass defaults. `num_epochs` and `max_steps` are
`Option Int` because Python lets a caller pass `None` despite the `int`
annotation, which is exactly what the `__post_init__` assertion guards. -/
structure ConfigArgsInput where
  data_dir : Option String := none
  output_dir_base : Option String := none
  checkpoint_path : Option String := none
  targets : Option StrOrList := none
  conditioning : Option StrOrList := none
  log_dir : String := "~/tmp/musicbert_hf_logs"
  num_epochs : Option Int := some 0
  batch_size : Int := 4
  warmup_steps : Int := 0
  max_steps : Option Int := some (-1)
  wandb_project : Option String := none
  freeze_layers : FreezeSpec := .noneSpec

/-- The constructed `Config` object after `__post_init__` ran: `targets`
and `conditioning` are normalized to lists and `job_id` (the private
`_job_id`) is stored once. -/
structure Config where
  data_dir : String
  output_dir_base : String
  checkpoint_path : String
  targets : List String
  conditioning : List String
  log_dir : String
  num_epochs : Option Int
  batch_size : Int
  warmup_steps : Int
  max_steps : Option Int
  wandb_project : Option String
  freeze_layers : FreezeSpec
  job_id : String
  deriving DecidableEq, Repr

/-- `Config(**kwargs)`: a missing required dataclass field raises
`TypeError` before `__post_init__` runs; then `__post_init__` asserts that
`num_epochs` or `max_steps` is not `None`, captures `_job_id` from the
`SLURM_JOB_ID` environment variable (falling back to the current time as a
string), and normalizes `targets` / `conditioning` to lists. -/
def mkConfig (args : ConfigArgsInput) (env : String → Option String)
    (timeStr : String) : Except PyError Config :=
  match args.data_dir, args.output_dir_base, args.checkpoint_path, args.targets with
  | some dd, some odb, some cp, some tg =>
    if args.num_epochs = none ∧ args.max_steps = none then
      .error (.assertionError "Either num_epochs or max_steps must be provided")
    else
      .ok
        { data_dir := dd
          output_dir_base := odb
          checkpoint_path := cp
          targets := match tg with | .str s => [s] | .list l => l
          conditioning :=
            match args.conditioning with
            | some (.str s) => [s]
            | some (.list l) => l
            | none => []
          log_dir := args.log_dir
          num_epochs := args.num_epochs
          batch_size := args.batch_size
          warmup_steps := args.warmup_steps
          max_steps := args.max_steps
          wandb_project := args.wandb_project
          freeze_layers := args.freeze_layers
          job_id := (env "SLURM_JOB_ID").getD timeStr }
  | _, _, _, _ =>
    .error (.typeError "__init__ missing required positional argument")

namespace Config

/-- `config.train_dir` / `valid_dir` / `test_dir`, generalized over the
split name exactly as `getattr(config, f"{split}_dir")` selects them. -/
def split_dir (c : Config) (split : String) : String :=
  osPathJoin2 c.data_dir split

/-- `config.output_dir`: the output root joined with the stored run id. -/
def output_dir (c : Config) : String :=
  osPathJoin2 c.output_dir_base c.job_id

/-- `config.target_paths(split)`: one `<data_dir>/<split>/<target>.h5`
path per target, in target order. -/
def target_paths (c : Config) (split : String) : List String :=
  c.targets.map fun target => osPathJoin3 c.data_dir split (target ++ ".h5")

/-- `config.conditioning_paths(split)`. -/
def conditioning_paths (c : Config) (split : String) : List String :=
  c.conditioning.map fun cond => osPathJoin3 c.data_dir split (cond ++ ".h5")

/-- `config.multitask`: more than one target. -/
def multitask (c : Config) : Bool :=
  c.targets.length > 1

end Config

/-- Python truthiness of a `str | None` value: `None` and `""` are falsy. -/
def truthyOptStr : Option String → Bool
  | some s => s ≠ ""
  | none => false

/-- The value type of the parsed CLI mapping and of the training-argument
bundle (`OmegaConf` scalars, lists, and Python `None`). -/
inductive TValue where
  | str (s : String)
  | int (n : Int)
  | bool (b : Bool)
  | list (l : List String)
  | pynone
  deriving DecidableEq, Repr

/-- A Python dict observed through lookup: `none` means the key is absent. -/
def PyDict := String → Option TValue

/-- `Config.__dataclass_fields__.keys()`: the thirteen declared fields
(`_job_id` is created in `__post_init__` and is not a dataclass field). -/
def config_fields : List String :=
  ["data_dir", "output_dir_base", "checkpoint_path", "targets",
   "conditioning", "log_dir", "num_epochs", "batch_size", "learning_rate",
   "warmup_steps", "max_steps", "wandb_project", "freeze_layers"]

/-- `{k: v for k, v in conf.items() if k in config_fields}`. -/
def config_kwargs (conf : PyDict) : PyDict := fun k =>
  if k ∈ config_fields then conf k else none

/-- `{k: v for k, v in conf.items() if k not in config_fields}`: the
pass-through options for the training engine. -/
def cli_training_kwargs (conf : PyDict) : PyDict := fun k =>
  if k ∈ config_fields then none else conf k

/-- Python `d1 | d2` observed through lookup: the right dict wins. -/
def dictUnion (d1 d2 : PyDict) : PyDict := fun k =>
  match d2 k with
  | some v => some v
  | none => d1 k

/-- `d[k] = v`. -/
def dictSet (d : PyDict) (key : String) (v : TValue) : PyDict := fun k =>
  if k = key then some v else d k

/-- An `Option Int` rendered as the corresponding Python value. -/
def optIntTValue : Option Int → TValue
  | some n => .int n
  | none => .pynone

/-- The fixed `dict(...)` of default training arguments built in
`__main__` (lines 154-170), keyed by option name. -/
def default_training_kwargs (c : Config) : PyDict := fun k =>
  if k = "output_dir" then some (.str c.output_dir)
  else if k = "num_train_epochs" then some (optIntTValue c.num_epochs)
  else if k = "per_device_train_batch_size" then some (.int c.batch_size)
  else if k = "per_device_eval_batch_size" then some (.int c.batch_size)
  else if k = "warmup_steps" then some (.int c.warmup_steps)
  else if k = "logging_dir" then some (.str c.log_dir)
  else if k = "max_steps" then some (optIntTValue c.max_steps)
  else if k = "push_to_hub" then some (.bool false)
  else if k = "eval_on_start" then some (.bool true)
  else if k = "eval_strategy" then some (.str "steps")
  else if k = "metric_for_best_model" then some (.str "accuracy")
  else if k = "greater_is_better" then some (.bool true)
  else if k = "save_total_limit" then some (.int 2)
  else if k = "load_best_model_at_end" then some (.bool true)
  else none

/-- The final training-argument bundle: defaults overridden by the
pass-through CLI options (`dict(...) | training_kwargs`), after which
`training_kwargs["report_to"]` is unconditionally assigned from
`config.wandb_project` truthiness. -/
def final_training_kwargs (c : Config) (cli_training : PyDict) : PyDict :=
  dictSet (dictUnion (default_training_kwargs c) cli_training) "report_to"
    (if truthyOptStr c.wandb_project then .str "wandb" else .pynone)

/-- Modelled from the spec: `HDF5Dataset` (the dataset handle, defined in
`musicbert_hf.data`, which is not part of the given sources) represents one
split's data as one shared events path plus one label path per target, and
"exposes the per-target label cardinalities needed to size classification
heads" as `vocab_sizes` — one entry per target file, in target order, given
here by an abstract per-file cardinality oracle. -/
structure HDF5Dataset where
  events_path : String
  target_paths : List String
  vocab_sizes : List Nat
  deriving DecidableEq, Repr

/-- `get_dataset(config, split)`: resolves the split directory, joins the
shared `events.h5` path, and constructs the handle over the per-target
label paths. `vocabSize` is the abstract per-file label-cardinality
oracle of the spec-modelled `HDF5Dataset`. -/
def get_dataset (vocabSize : String → Nat) (c : Config) (split : String) :
    HDF5Dataset :=
  let data_dir := c.split_dir split
  { events_path := osPathJoin2 data_dir "events.h5"
    target_paths := c.target_paths split
    vocab_sizes := (c.target_paths split).map vocabSize }

/-- Which model-loading path the dispatch selected, with the checkpoint
and `num_labels` argument it was invoked with. -/
inductive ModelLoad where
  | multitask (checkpoint : String) (num_labels : List Nat)
  | singletask (checkpoint : String) (num_labels : Nat)
  deriving DecidableEq, Repr

/-- The model-selection dispatch of `__main__` (lines 124-150): requires a
truthy checkpoint path, rejects conditioning in both task modes, and
otherwise selects the multitask or single-task loader. The single-task
branch indexes `vocab_sizes[0]`, which is Python's `IndexError` when the
list is empty. -/
def dispatch_model (c : Config) (train_dataset : HDF5Dataset) :
    Except PyError ModelLoad :=
  if c.checkpoint_path ≠ "" then
    if c.multitask then
      if c.conditioning ≠ [] then
        .error (.notImplementedError
          "Conditioning is not yet implemented for multitask training")
      else
        .ok (.multitask c.checkpoint_path train_dataset.vocab_sizes)
    else
      if c.conditioning ≠ [] then
        .error (.notImplementedError
          "Conditioning is not yet implemented for single-task training")
      else
        match train_dataset.vocab_sizes with
        | [] => .error (.indexError "list index out of range")
        | n :: _ => .ok (.singletask c.checkpoint_path n)
  else
    .error (.valueError "checkpoint_path must be provided")

/-- The outcome of running `__main__` up to trainer construction. -/
inductive Outcome where
  | ok
  | error (e : PyError)
  deriving DecidableEq, Repr

/-- The observable state left behind by `__main__`: the `WANDB_PROJECT`
environment variable after the run, the dataset handles that were
constructed, the model-load call that was made (if any), the final
training-argument bundle (if reached), and the outcome. -/
structure MainState where
  wandb_project_env : Option String
  train_dataset : Option HDF5Dataset
  valid_dataset : Option HDF5Dataset
  model : Option ModelLoad
  final_kwargs : Option PyDict
  outcome : Outcome

/-- The `__main__` block as a sequential state transformer: construct the
`Config` (propagating construction errors before any side effect), set or
pop `WANDB_PROJECT`, construct the train and valid dataset handles, run the
model-selection dispatch, and on success assemble the final
training-argument bundle. `env` is the initial process environment,
`timeStr` the stringified construction time, `vocabSize` the dataset
cardinality oracle, and `args`/`cli_training` the two halves of the parsed
CLI mapping. -/
def runMain (args : ConfigArgsInput) (cli_training : PyDict)
    (env : String → Option String) (timeStr : String)
    (vocabSize : String → Nat) : MainState :=
  match mkConfig args env timeStr with
  | .error e =>
    { wandb_project_env := env "WANDB_PROJECT"
      train_dataset := none
      valid_dataset := none
      model := none
      final_kwargs := none
      outcome := .error e }
  | .ok c =>
    let wenv := if truthyOptStr c.wandb_project then c.wandb_project else none
    let train := get_dataset vocabSize c "train"
    let valid := get_dataset vocabSize c "valid"
    match dispatch_model c train with
    | .error e =>
      { wandb_project_env := wenv
        train_dataset := some train
        valid_dataset := some valid
        model := none
        final_kwargs := none
        outcome := .error e }
    | .ok m =>
      { wandb_project_env := wenv
        train_dataset := some train
        valid_dataset := some valid
        model := some m
        final_kwargs := some (final_training_kwargs c cli_training)
        outcome := .ok }

/-! ### Concrete fixtures used by witnesses and counterexamples -/

/-- An environment in which the cluster job-id variable is set. -/
def testEnv : String → Option String := fun k =>
  if k = "SLURM_JOB_ID" then some "12345" else none

/-- An empty CLI pass-through mapping. -/
def emptyCli : PyDict := fun _ => none

/-- A concrete label-cardinality oracle for the dataset handle. -/
def vocab0 : String → Nat := fun p => p.length

/-- CLI arguments for a two-target (multitask) run. -/
def args_two_targets : ConfigArgsInput :=
  { data_dir := some "/d"
    output_dir_base := some "/o"
    checkpoint_path := some "/ckpt"
    targets := some (.list ["onset", "pitch"]) }

/-- CLI arguments for a single-target run given as a bare string. -/
def args_one_target : ConfigArgsInput :=
  { data_dir := some "/d"
    output_dir_base := some "/o"
    checkpoint_path := some "/ckpt"
    targets := some (.str "onset") }

/-- The `Config` produced from `args_two_targets` under `testEnv`. -/
def cfg_two : Config :=
  { data_dir := "/d"
    output_dir_base := "/o"
    checkpoint_path := "/ckpt"
    targets := ["onset", "pitch"]
    conditioning := []
    log_dir := "~/tmp/musicbert_hf_logs"
    num_epochs := some 0
    batch_size := 4
    warmup_steps := 0
    max_steps := some (-1)
    wandb_project := none
    freeze_layers := .noneSpec
    job_id := "12345" }

/-! ### Characterization of `Config` construction -/

/-- A successful `Config(**kwargs)` call determines the object: all four
required fields were present, the epochs/steps assertion held, and every
field of the result is the corresponding (normalized) argument, with
`job_id` drawn from the environment or the construction time. -/
theorem mkConfig_ok_elim {args : ConfigArgsInput} {env : String → Option String}
    {t : String} {c : Config} (h : mkConfig args env t = .ok c) :
    ∃ dd odb cp tg,
      args.data_dir = some dd ∧ args.output_dir_base = some odb ∧
      args.checkpoint_path = some cp ∧ args.targets = some tg ∧
      ¬(args.num_epochs = none ∧ args.max_steps = none) ∧
      c = { data_dir := dd
            output_dir_base := odb
            checkpoint_path := cp
            targets := match tg with | .str s => [s] | .list l => l
            conditioning :=
              match args.conditioning with
              | some (.str s) => [s]
              | some (.list l) => l
              | none => []
            log_dir := args.log_dir
            num_epochs := args.num_epochs
            batch_size := args.batch_size
            warmup_steps := args.warmup_steps
            max_steps := args.max_steps
            wandb_project := args.wandb_project
            freeze_layers := args.freeze_layers
            job_id := (env "SLURM_JOB_ID").getD t } := by
  rcases h1 : args.data_dir with _ | dd <;>
  rcases h2 : args.output_dir_base with _ | odb <;>
  rcases h3 : args.checkpoint_path with _ | cp <;>
  rcases h4 : args.targets with _ | tg <;>
    simp only [mkConfig, h1, h2, h3, h4] at h <;>
    try exact absurd h (by simp)
  by_cases hcond : args.num_epochs = none ∧ args.max_steps = none
  · rw [if_pos hcond] at h
    exact absurd h (by simp)
  · rw [if_neg hcond] at h
    injection h with hc
    exact ⟨dd, odb, cp, tg, rfl, rfl, rfl, rfl, hcond, hc.symm⟩

/-- C6: after construction, a bare-string `targets` is wrapped into a
one-element list while a list is preserved unchanged, and `conditioning`
is wrapped when a string, preserved when a list, and the empty list when
absent (`None`). -/
theorem targets_conditioning_normalized
    {args : ConfigArgsInput} {env : String → Option String} {t : String}
    {c : Config} (h : mkConfig args env t = .ok c) :
    (∀ s, args.targets = some (.str s) → c.targets = [s]) ∧
    (∀ l, args.targets = some (.list l) → c.targets = l) ∧
    (∀ s, args.conditioning = some (.str s) → c.conditioning = [s]) ∧
    (∀ l, args.conditioning = some (.list l) → c.conditioning = l) ∧
    (args.conditioning = none → c.conditioning = []) := by
  obtain ⟨dd, odb, cp, tg, h1, h2, h3, h4, hcond, hc⟩ := mkConfig_ok_elim h
  subst hc
  refine ⟨?_, ?_, ?_, ?_, ?_⟩
  · intro s hs; rw [h4] at hs; injection hs with hs; subst hs; rfl
  · intro l hl; rw [h4] at hl; injection hl with hl; subst hl; rfl
  · intro s hs; simp [hs]
  · intro l hl; simp [hl]
  · intro hn; simp [hn]

/-- The `Config` produced from `args_one_target` under `testEnv`. -/
def cfg_one : Config := { cfg_two with targets := ["onset"] }

/-- Witness for C6 at a concrete bare-string input. -/
theorem targets_conditioning_normalized_witness :
    mkConfig args_one_target testEnv "t0" = .ok cfg_one ∧
    cfg_one.targets = ["onset"] ∧ cfg_one.conditioning = [] := by
  have h : mkConfig args_one_target testEnv "t0" = .ok cfg_one := rfl
  exact ⟨h, (targets_conditioning_normalized h).1 "onset" rfl,
    (targets_conditioning_normalized h).2.2.2.2 rfl⟩

/-- C8: with all required fields supplied, construction raises the
epochs/steps assertion exactly when both `num_epochs` and `max_steps` are
`None`; when at least one is available, construction succeeds (so it does
not fail on this precondition). -/
theorem epochs_steps_precondition (args : ConfigArgsInput)
    (env : String → Option String) (t : String)
    (dd odb cp : String) (tg : StrOrList)
    (h1 : args.data_dir = some dd) (h2 : args.output_dir_base = some odb)
    (h3 : args.checkpoint_path = some cp) (h4 : args.targets = some tg) :
    (mkConfig args env t =
        .error (.assertionError "Either num_epochs or max_steps must be provided") ↔
      args.num_epochs = none ∧ args.max_steps = none) ∧
    (¬(args.num_epochs = none ∧ args.max_steps = none) →
      ∃ c, mkConfig args env t = .ok c) := by
  constructor
  · constructor
    · intro h
      by_contra hcond
      simp only [mkConfig, h1, h2, h3, h4, if_neg hcond] at h
      exact absurd h (by simp)
    · intro hcond
      simp only [mkConfig, h1, h2, h3, h4, if_pos hcond]
  · intro hcond
    cases hmk : mkConfig args env t with
    | ok c => exact ⟨c, rfl⟩
    | error e =>
      exfalso
      simp only [mkConfig, h1, h2, h3, h4, if_neg hcond] at hmk
      exact absurd hmk (by simp)

/-- Witness for C8: with both counts passed as `None` the assertion fires,
and at the defaults (`num_epochs=0`, `max_steps=-1`) construction succeeds. -/
theorem epochs_steps_precondition_witness :
    mkConfig { args_one_target with num_epochs := none, max_steps := none }
        testEnv "t0" =
      .error (.assertionError "Either num_epochs or max_steps must be provided") ∧
    (mkConfig args_one_target testEnv "t0").isOk = true := by
  refine ⟨?_, ?_⟩
  · exact (epochs_steps_precondition
      { args_one_target with num_epochs := none, max_steps := none }
      testEnv "t0" "/d" "/o" "/ckpt" (.str "onset") rfl rfl rfl rfl).1.mpr ⟨rfl, rfl⟩
  · obtain ⟨c, hc⟩ := (epochs_steps_precondition args_one_target testEnv "t0"
      "/d" "/o" "/ckpt" (.str "onset") rfl rfl rfl rfl).2 (by decide)
    rw [hc]
    rfl

/-- C9: the run identifier stored at construction equals the
`SLURM_JOB_ID` environment value when present, else the construction-time
timestamp; and `output_dir` is a pure function of the stored fields — every
access yields the join of the output root with that stored identifier. -/
theorem job_id_fixed_output_dir
    {args : ConfigArgsInput} {env : String → Option String} {t : String}
    {c : Config} (h : mkConfig args env t = .ok c) :
    (∀ s, env "SLURM_JOB_ID" = some s → c.job_id = s) ∧
    (env "SLURM_JOB_ID" = none → c.job_id = t) ∧
    c.output_dir = osPathJoin2 c.output_dir_base c.job_id := by
  obtain ⟨dd, odb, cp, tg, h1, h2, h3, h4, hcond, hc⟩ := mkConfig_ok_elim h
  subst hc
  refine ⟨?_, ?_, rfl⟩
  · intro s hs; simp [hs]
  · intro hs; simp [hs]

/-- Witness for C9 with `SLURM_JOB_ID` set. -/
theorem job_id_fixed_output_dir_witness :
    cfg_two.job_id = "12345" ∧ cfg_two.output_dir = osPathJoin2 "/o" "12345" := by
  have h : mkConfig args_two_targets testEnv "t0" = .ok cfg_two := rfl
  exact ⟨(job_id_fixed_output_dir h).1 "12345" rfl,
    (job_id_fixed_output_dir h).2.2⟩

/-! ### String lemmas for path joining -/

/-- A string equals `""` exactly when its character list is empty. -/
theorem str_eq_empty_iff (s : String) : s = "" ↔ s.data = [] := by
  cases s; simp [String.ext_iff]

/-- Appending on the left leaves the first character unchanged unless the
left part is empty. -/
theorem headIsSep_append (t u : String) :
    headIsSep (t ++ u) = (if t.data = [] then headIsSep u else headIsSep t) := by
  simp only [headIsSep, String.data_append]
  cases t.data <;> simp

/-- Appending on the right leaves the last character unchanged unless the
right part is empty. -/
theorem lastIsSep_append (t u : String) :
    lastIsSep (t ++ u) = (if u.data = [] then lastIsSep t else lastIsSep u) := by
  simp only [lastIsSep, String.data_append]
  rcases h : u.data with _ | ⟨ch, l⟩
  · simp
  · rw [if_neg (by simp), List.getLast?_append_of_ne_nil _ (by simp)]

/-- In the ordinary case (nonempty left part with no trailing separator,
relative right part) `os.path.join` inserts exactly one separator. -/
theorem osPathJoin2_eq_concat (a b : String) (ha : a ≠ "")
    (ha' : lastIsSep a = false) (hb : headIsSep b = false) :
    osPathJoin2 a b = a ++ "/" ++ b := by
  simp [osPathJoin2, hb, ha, ha']

/-- C7: for every constructed `Config` and ordinary split name (nonempty,
no leading or trailing separator — as "train", "valid" and "test" are),
with a nonempty data root without trailing separator and relative target
names, `target_paths` returns exactly one path per target, in target
order, the path for target `tg` being `<data_dir>/<split>/<tg>.h5`. -/
theorem target_paths_per_target (c : Config) (split : String)
    (hd : c.data_dir ≠ "") (hd' : lastIsSep c.data_dir = false)
    (hs : split ≠ "") (hs1 : headIsSep split = false)
    (hs2 : lastIsSep split = false)
    (ht : ∀ tg ∈ c.targets, headIsSep tg = false) :
    c.target_paths split =
      c.targets.map (fun tg => c.data_dir ++ "/" ++ split ++ "/" ++ tg ++ ".h5") ∧
    (c.target_paths split).length = c.targets.length := by
  have hsd : split.data ≠ [] := fun h => hs ((str_eq_empty_iff split).mpr h)
  have hinner : osPathJoin2 c.data_dir split = c.data_dir ++ "/" ++ split :=
    osPathJoin2_eq_concat _ _ hd hd' hs1
  have hne : c.data_dir ++ "/" ++ split ≠ "" := by
    rw [Ne, str_eq_empty_iff]
    simp [String.data_append]
  have hlast : lastIsSep (c.data_dir ++ "/" ++ split) = false := by
    rw [lastIsSep_append, if_neg hsd]
    exact hs2
  constructor
  · unfold Config.target_paths osPathJoin3
    apply List.map_congr_left
    intro tg htg
    have hb : headIsSep (tg ++ ".h5") = false := by
      rw [headIsSep_append]
      split
      · decide
      · exact ht tg htg
    rw [hinner, osPathJoin2_eq_concat _ _ hne hlast hb,
      ← String.append_assoc]
  · simp [Config.target_paths]

/-- Witness for C7: the two-target config at split "train". -/
theorem target_paths_per_target_witness :
    cfg_two.target_paths "train" = ["/d/train/onset.h5", "/d/train/pitch.h5"] ∧
    (cfg_two.target_paths "train").length = cfg_two.targets.length := by
  have h := target_paths_per_target cfg_two "train" (by decide) (by decide)
    (by decide) (by decide) (by decide) (by decide)
  exact ⟨by rw [h.1]; decide, h.2⟩

/-! ### More fixtures -/

/-- Two-target arguments with a conditioning input requested. -/
def args_conditioned : ConfigArgsInput :=
  { args_two_targets with conditioning := some (.str "key") }

/-- The `Config` produced from `args_conditioned` under `testEnv`. -/
def cfg_conditioned : Config := { cfg_two with conditioning := ["key"] }

/-- Two-target arguments with an empty checkpoint path. -/
def args_empty_ckpt : ConfigArgsInput :=
  { args_two_targets with checkpoint_path := some "" }

/-- The `Config` produced from `args_empty_ckpt` under `testEnv`. -/
def cfg_empty_ckpt : Config := { cfg_two with checkpoint_path := "" }

/-- Arguments whose `checkpoint_path` keyword is absent. -/
def args_no_ckpt : ConfigArgsInput :=
  { data_dir := some "/d"
    output_dir_base := some "/o"
    targets := some (.str "onset") }

/-- Two-target arguments with a tracking project configured. -/
def args_wandb : ConfigArgsInput :=
  { args_two_targets with wandb_project := some "proj" }

/-- The `Config` produced from `args_wandb` under `testEnv`. -/
def cfg_wandb : Config := { cfg_two with wandb_project := some "proj" }

/-! ### Dispatch lemmas -/

/-- With a truthy checkpoint and nonempty conditioning, the dispatch
raises `NotImplementedError` in both task modes. -/
theorem dispatch_model_conditioning (c : Config) (d : HDF5Dataset)
    (hcp : c.checkpoint_path ≠ "") (hcond : c.conditioning ≠ []) :
    dispatch_model c d =
      .error (.notImplementedError
        (if c.multitask then
          "Conditioning is not yet implemented for multitask training"
         else
          "Conditioning is not yet implemented for single-task training")) := by
  cases hmt : c.multitask <;> simp [dispatch_model, hcp, hcond, hmt]

/-- C3: with a non-empty checkpoint path and a non-empty conditioning
list, the run raises `NotImplementedError` — the multitask message in the
multitask branch, the single-task message otherwise — and no model-loading
call is made. -/
theorem conditioning_raises_not_implemented
    (args : ConfigArgsInput) (cli : PyDict) (env : String → Option String)
    (t : String) (vs : String → Nat) (c : Config)
    (hok : mkConfig args env t = .ok c)
    (hcp : c.checkpoint_path ≠ "") (hcond : c.conditioning ≠ []) :
    (runMain args cli env t vs).model = none ∧
    (c.multitask = true →
      (runMain args cli env t vs).outcome =
        .error (.notImplementedError
          "Conditioning is not yet implemented for multitask training")) ∧
    (c.multitask = false →
      (runMain args cli env t vs).outcome =
        .error (.notImplementedError
          "Conditioning is not yet implemented for single-task training")) := by
  have hd := dispatch_model_conditioning c (get_dataset vs c "train") hcp hcond
  refine ⟨?_, ?_, ?_⟩
  · simp only [runMain, hok, hd]
  · intro hmt
    simp only [runMain, hok, hd, hmt]
    simp
  · intro hmt
    simp only [runMain, hok, hd, hmt]
    simp

/-- Witness for C3 in the multitask branch. -/
theorem conditioning_raises_not_implemented_witness :
    (runMain args_conditioned emptyCli testEnv "t0" vocab0).model = none ∧
    (runMain args_conditioned emptyCli testEnv "t0" vocab0).outcome =
      .error (.notImplementedError
        "Conditioning is not yet implemented for multitask training") := by
  have h := conditioning_raises_not_implemented args_conditioned emptyCli
    testEnv "t0" vocab0 cfg_conditioned rfl (by decide) (by decide)
  exact ⟨h.1, h.2.1 (by decide)⟩

/-- With a truthy checkpoint, no conditioning and more than one target,
the dispatch selects the multitask loader with `num_labels` equal to the
train handle's `vocab_sizes`. -/
theorem dispatch_model_multitask (c : Config) (d : HDF5Dataset)
    (hcp : c.checkpoint_path ≠ "") (hcond : c.conditioning = [])
    (hmt : 1 < c.targets.length) :
    dispatch_model c d = .ok (.multitask c.checkpoint_path d.vocab_sizes) := by
  have hmt' : c.multitask = true := by
    simp [Config.multitask, hmt]
  simp [dispatch_model, hcp, hcond, hmt']

/-- With a truthy checkpoint, no conditioning and a single target, the
dispatch selects the single-task loader with `num_labels` equal to the
first entry of the train handle's `vocab_sizes`. -/
theorem dispatch_model_singletask (c : Config) (d : HDF5Dataset)
    (hcp : c.checkpoint_path ≠ "") (hcond : c.conditioning = [])
    (n : Nat) (rest : List Nat) (hv : d.vocab_sizes = n :: rest)
    (hmt : ¬1 < c.targets.length) :
    dispatch_model c d = .ok (.singletask c.checkpoint_path n) := by
  have hmt' : c.multitask = false := by
    simp [Config.multitask, hmt]
  simp [dispatch_model, hcp, hcond, hmt', hv]

/-- C4: with a non-empty checkpoint and empty conditioning, a run with
more than one target loads the multitask token classifier with one
vocabulary size per target, in target order (each taken at that target's
train-split label file); a run whose target list is a single element —
in particular one given as a bare string — loads the single-task
classifier with the sole entry of that list. -/
theorem model_selection_num_labels
    (args : ConfigArgsInput) (cli : PyDict) (env : String → Option String)
    (t : String) (vs : String → Nat) (c : Config)
    (hok : mkConfig args env t = .ok c)
    (hcp : c.checkpoint_path ≠ "") (hcond : c.conditioning = []) :
    (1 < c.targets.length →
      (runMain args cli env t vs).model =
        some (.multitask c.checkpoint_path
          (c.targets.map fun tg =>
            vs (osPathJoin3 c.data_dir "train" (tg ++ ".h5"))))) ∧
    (∀ tg0, c.targets = [tg0] →
      (runMain args cli env t vs).model =
        some (.singletask c.checkpoint_path
          (vs (osPathJoin3 c.data_dir "train" (tg0 ++ ".h5"))))) ∧
    (∀ s, args.targets = some (.str s) →
      (runMain args cli env t vs).model =
        some (.singletask c.checkpoint_path
          (vs (osPathJoin3 c.data_dir "train" (s ++ ".h5"))))) := by
  have hvs : (get_dataset vs c "train").vocab_sizes =
      c.targets.map fun tg => vs (osPathJoin3 c.data_dir "train" (tg ++ ".h5")) := by
    simp [get_dataset, Config.target_paths, List.map_map, Function.comp]
  have single : ∀ tg0, c.targets = [tg0] →
      (runMain args cli env t vs).model =
        some (.singletask c.checkpoint_path
          (vs (osPathJoin3 c.data_dir "train" (tg0 ++ ".h5")))) := by
    intro tg0 htg
    have hv : (get_dataset vs c "train").vocab_sizes =
        vs (osPathJoin3 c.data_dir "train" (tg0 ++ ".h5")) :: [] := by
      rw [hvs, htg]; rfl
    have hd := dispatch_model_singletask c (get_dataset vs c "train") hcp hcond
      _ _ hv (by rw [htg]; simp)
    simp only [runMain, hok, hd]
  refine ⟨?_, single, ?_⟩
  · intro hmt
    have hd := dispatch_model_multitask c (get_dataset vs c "train") hcp hcond hmt
    simp only [runMain, hok, hd, hvs]
  · intro s hs
    obtain ⟨dd, odb, cp, tg, h1, h2, h3, h4, hcnd, hc⟩ := mkConfig_ok_elim hok
    have htg : c.targets = [s] := by
      rw [h4] at hs
      injection hs with hs
      subst hs hc
      rfl
    exact single s htg

/-- Witness for C4: the two-target run selects the multitask loader with
both vocabulary sizes, and the bare-string single-target run selects the
single-task loader with the sole vocabulary size. -/
theorem model_selection_num_labels_witness :
    (runMain args_two_targets emptyCli testEnv "t0" vocab0).model =
      some (.multitask "/ckpt" [vocab0 "/d/train/onset.h5", vocab0 "/d/train/pitch.h5"]) ∧
    (runMain args_one_target emptyCli testEnv "t0" vocab0).model =
      some (.singletask "/ckpt" (vocab0 "/d/train/onset.h5")) := by
  constructor
  · have h := (model_selection_num_labels args_two_targets emptyCli testEnv "t0"
      vocab0 cfg_two rfl (by decide) rfl).1 (by decide)
    rw [h]; decide
  · have h := (model_selection_num_labels args_one_target emptyCli testEnv "t0"
      vocab0 cfg_one rfl (by decide) rfl).2.2 "onset" rfl
    rw [h]; decide

/-- C10: on the empty-checkpoint error path the `ValueError` is raised
only after the `WANDB_PROJECT` environment variable was set or removed and
both dataset handles were constructed; those side effects are recorded in
the terminal state (nothing undoes them), and no model-loading call was
made. -/
theorem empty_checkpoint_side_effects
    (args : ConfigArgsInput) (cli : PyDict) (env : String → Option String)
    (t : String) (vs : String → Nat) (c : Config)
    (hok : mkConfig args env t = .ok c)
    (hcp : c.checkpoint_path = "") :
    (runMain args cli env t vs).outcome =
      .error (.valueError "checkpoint_path must be provided") ∧
    (runMain args cli env t vs).wandb_project_env =
      (if truthyOptStr c.wandb_project then c.wandb_project else none) ∧
    (runMain args cli env t vs).train_dataset = some (get_dataset vs c "train") ∧
    (runMain args cli env t vs).valid_dataset = some (get_dataset vs c "valid") ∧
    (runMain args cli env t vs).model = none := by
  have hd : dispatch_model c (get_dataset vs c "train") =
      .error (.valueError "checkpoint_path must be provided") := by
    simp [dispatch_model, hcp]
  refine ⟨?_, ?_, ?_, ?_, ?_⟩ <;> simp only [runMain, hok, hd]

/-- Witness for C10 at the concrete empty-checkpoint input. -/
theorem empty_checkpoint_side_effects_witness :
    (runMain args_empty_ckpt emptyCli testEnv "t0" vocab0).outcome =
      .error (.valueError "checkpoint_path must be provided") ∧
    (runMain args_empty_ckpt emptyCli testEnv "t0" vocab0).train_dataset =
      some (get_dataset vocab0 cfg_empty_ckpt "train") ∧
    (runMain args_empty_ckpt emptyCli testEnv "t0" vocab0).valid_dataset =
      some (get_dataset vocab0 cfg_empty_ckpt "valid") ∧
    (runMain args_empty_ckpt emptyCli testEnv "t0" vocab0).wandb_project_env = none := by
  have h := empty_checkpoint_side_effects args_empty_ckpt emptyCli testEnv "t0"
    vocab0 cfg_empty_ckpt rfl rfl
  exact ⟨h.1, h.2.2.1, h.2.2.2.1, by rw [h.2.1]; decide⟩

/-- C2 counterexample: with `checkpoint_path` given as the empty string,
`Config` construction succeeds (it does not fail "at construction"), a
dataset handle is built, and the failure only appears as the dispatch-time
`ValueError`. -/
theorem empty_checkpoint_constructs_counterexample :
    (mkConfig args_empty_ckpt testEnv "t0").isOk = true ∧
    (runMain args_empty_ckpt emptyCli testEnv "t0" vocab0).train_dataset.isSome = true ∧
    (runMain args_empty_ckpt emptyCli testEnv "t0" vocab0).outcome =
      .error (.valueError "checkpoint_path must be provided") := by
  decide

/-- C2 (amended): an absent `checkpoint_path` keyword makes construction
fail immediately with `TypeError`, before any side effect; an empty-string
`checkpoint_path` passes construction, and the run fails with the
dispatch-time `ValueError` — before any model loading, though after
telemetry setup and dataset construction. -/
theorem checkpoint_required_behavior
    (args : ConfigArgsInput) (cli : PyDict) (env : String → Option String)
    (t : String) (vs : String → Nat) :
    (args.checkpoint_path = none →
      mkConfig args env t =
        .error (.typeError "__init__ missing required positional argument") ∧
      (runMain args cli env t vs).train_dataset = none ∧
      (runMain args cli env t vs).valid_dataset = none ∧
      (runMain args cli env t vs).model = none ∧
      (runMain args cli env t vs).outcome =
        .error (.typeError "__init__ missing required positional argument")) ∧
    (∀ c, mkConfig args env t = .ok c → c.checkpoint_path = "" →
      (runMain args cli env t vs).outcome =
        .error (.valueError "checkpoint_path must be provided") ∧
      (runMain args cli env t vs).model = none) := by
  constructor
  · intro h3
    have hmk : mkConfig args env t =
        .error (.typeError "__init__ missing required positional argument") := by
      rcases h1 : args.data_dir with _ | dd <;>
      rcases h2 : args.output_dir_base with _ | odb <;>
      rcases h4 : args.targets with _ | tg <;>
        simp [mkConfig, h1, h2, h3, h4]
    refine ⟨hmk, ?_, ?_, ?_, ?_⟩ <;> simp only [runMain, hmk]
  · intro c hok hcp
    have h := empty_checkpoint_side_effects args cli env t vs c hok hcp
    exact ⟨h.1, h.2.2.2.2⟩

/-- Witness for the amended C2: both the absent case (TypeError at
construction) and the empty-string case (dispatch-time ValueError). -/
theorem checkpoint_required_behavior_witness :
    mkConfig args_no_ckpt testEnv "t0" =
      .error (.typeError "__init__ missing required positional argument") ∧
    (runMain args_empty_ckpt emptyCli testEnv "t0" vocab0).outcome =
      .error (.valueError "checkpoint_path must be provided") := by
  refine ⟨((checkpoint_required_behavior args_no_ckpt emptyCli testEnv "t0"
    vocab0).1 rfl).1, ?_⟩
  exact ((checkpoint_required_behavior args_empty_ckpt emptyCli testEnv "t0"
    vocab0).2 cfg_empty_ckpt rfl rfl).1

/-- C5: after telemetry setup, a configured (truthy) tracking project puts
its name in the `WANDB_PROJECT` environment variable and sets the bundle's
`report_to` entry to `"wandb"`; with no project configured (`None`, or the
falsy empty string) the environment variable is absent and `report_to` is
the disabled value `None`. -/
theorem wandb_telemetry_setup
    (args : ConfigArgsInput) (cli : PyDict) (env : String → Option String)
    (t : String) (vs : String → Nat) (c : Config)
    (hok : mkConfig args env t = .ok c) :
    (∀ p, c.wandb_project = some p → p ≠ "" →
      (runMain args cli env t vs).wandb_project_env = some p ∧
      final_training_kwargs c cli "report_to" = some (.str "wandb")) ∧
    ((c.wandb_project = none ∨ c.wandb_project = some "") →
      (runMain args cli env t vs).wandb_project_env = none ∧
      final_training_kwargs c cli "report_to" = some .pynone) := by
  have henv : (runMain args cli env t vs).wandb_project_env =
      (if truthyOptStr c.wandb_project then c.wandb_project else none) := by
    cases hd : dispatch_model c (get_dataset vs c "train") <;>
      simp only [runMain, hok, hd]
  constructor
  · intro p hp hpne
    have htru : truthyOptStr c.wandb_project = true := by
      simp [truthyOptStr, hp, hpne]
    constructor
    · rw [henv, if_pos htru, hp]
    · simp [final_training_kwargs, dictSet, htru]
  · intro hnone
    have htru : truthyOptStr c.wandb_project = false := by
      rcases hnone with h | h <;> simp [truthyOptStr, h]
    constructor
    · rw [henv, if_neg (by simp [htru])]
    · simp [final_training_kwargs, dictSet, htru]

/-- Witness for C5: configured project "proj" versus no project. -/
theorem wandb_telemetry_setup_witness :
    (runMain args_wandb emptyCli testEnv "t0" vocab0).wandb_project_env =
      some "proj" ∧
    final_training_kwargs cfg_wandb emptyCli "report_to" = some (.str "wandb") ∧
    (runMain args_two_targets emptyCli testEnv "t0" vocab0).wandb_project_env =
      none ∧
    final_training_kwargs cfg_two emptyCli "report_to" = some .pynone := by
  have h1 := (wandb_telemetry_setup args_wandb emptyCli testEnv "t0" vocab0
    cfg_wandb rfl).1 "proj" rfl (by decide)
  have h2 := (wandb_telemetry_setup args_two_targets emptyCli testEnv "t0" vocab0
    cfg_two rfl).2 (Or.inl rfl)
  exact ⟨h1.1, h1.2, h2.1, h2.2⟩

/-- The CLI mapping of the C1 counterexample: the single pass-through pair
`report_to=tensorboard`. -/
def cli_report_to : PyDict := fun k =>
  if k = "report_to" then some (.str "tensorboard") else none

/-- C1 counterexample: `report_to` is a pass-through key (not a `Config`
field) supplied on the CLI, yet the final bundle carries the
telemetry-derived value `None` instead of the CLI value — the
unconditional post-merge `report_to` assignment clobbers it. -/
theorem passthrough_report_to_clobbered :
    cli_training_kwargs cli_report_to "report_to" = some (.str "tensorboard") ∧
    decide ("report_to" ∈ config_fields) = false ∧
    (runMain args_two_targets (cli_training_kwargs cli_report_to) testEnv "t0"
        vocab0).final_kwargs.map (fun fk => fk "report_to") =
      some (some TValue.pynone) := by
  decide

/-- C1 (amended): every pass-through CLI option other than `report_to`
appears in the final bundle with its CLI value, overriding any same-named
default; and no key outside the `Config` field set is ever passed to the
`Config` constructor. (`report_to` itself is overwritten after the merge
from the telemetry configuration.) -/
theorem passthrough_overrides_defaults
    (conf : PyDict) (c : Config) (k : String) (v : TValue)
    (hk : conf k = some v) (hnf : k ∉ config_fields) (hrep : k ≠ "report_to") :
    final_training_kwargs c (cli_training_kwargs conf) k = some v ∧
    (∀ k', k' ∉ config_fields → config_kwargs conf k' = none) := by
  constructor
  · simp [final_training_kwargs, dictSet, dictUnion, cli_training_kwargs,
      hrep, hnf, hk]
  · intro k' hk'
    simp [config_kwargs, hk']

/-- Witness for the amended C1: the pass-through pair `seed=42` overrides
the defaults, and an unrecognized key is filtered out of the constructor
arguments. -/
theorem passthrough_overrides_defaults_witness :
    final_training_kwargs cfg_two
      (cli_training_kwargs (fun k => if k = "seed" then some (.int 42) else none))
      "seed" = some (.int 42) ∧
    config_kwargs (fun k => if k = "seed" then some (.int 42) else none)
      "seed" = none := by
  have h := passthrough_overrides_defaults
    (fun k => if k = "seed" then some (.int 42) else none) cfg_two
    "seed" (.int 42) rfl (by decide) (by decide)
  exact ⟨h.1, h.2 "seed" (by decide)⟩

end Finetune
